import Mathlib

/-!
Verification development for the showallfiles event-coordination core.

The definitions below are a shallow embedding of the Go sources:
`internal/state/state.go` (shared state store), `internal/app/lib.go`
(registry status authority, window identity test, refresh broadcaster,
message-loop watcher, registry watcher) and `internal/app/app.go`
(application-ready wiring, msgbox). External collaborators (the Windows
registry, logrus, path/filepath) are modelled at their documented
interface boundary, as explicit inputs or small executable models.
-/

/-- `statusVisible = 1`, from `app.go` (`statusVisible uint64 = iota + 1`). -/
def statusVisible : Nat := 1

/-- `statusHidden = 2`, from `app.go`. -/
def statusHidden : Nat := 2

/-- Dynamically-typed values stored in the shared state map
(`map[string]any` in `state.go`), restricted to the value types the
application actually stores: `uint64` status, `uint32` thread id,
`windows.Handle` hook handle, `bool` msgbox flags, `*systray.MenuItem`. -/
inductive SVal where
  | u64 (n : Nat)
  | u32 (n : Nat)
  | handle (n : Nat)
  | b (v : Bool)
  | menu (id : Nat)
deriving DecidableEq

/-- Type tags for `SVal`, standing for the type parameter `T` of the
generic `state.Get[T]`/`state.Set[T]`. -/
inductive STy where
  | u64
  | u32
  | handle
  | b
  | menu
deriving DecidableEq

/-- The dynamic type of a stored value (what Go's type assertion `v.(T)` tests). -/
def SVal.ty : SVal → STy
  | .u64 _ => .u64
  | .u32 _ => .u32
  | .handle _ => .handle
  | .b _ => .b
  | .menu _ => .menu

/-- The Go zero value of each stored type (`var zero T` in `state.Get`). -/
def STy.zero : STy → SVal
  | .u64 => .u64 0
  | .u32 => .u32 0
  | .handle => .handle 0
  | .b => .b false
  | .menu => .menu 0

/-- The shared state map `data : map[string]any` of `state.go`. -/
def Store : Type := String → Option SVal

/-- The freshly initialized (or never-written) state map. -/
def emptyStore : Store := fun _ => none

namespace state

/-- `state.Get[T](key)` from `state.go`: returns `(zero, false)` when the key
is absent or the stored value fails the type assertion to `T`, and
`(value, true)` otherwise. -/
def Get (T : STy) (k : String) (m : Store) : SVal × Bool :=
  match m k with
  | none => (T.zero, false)
  | some v => if v.ty = T then (v, true) else (T.zero, false)

/-- `state.Set[T](key, value)` from `state.go`: stores `value` under `key`,
overwriting any previous entry. -/
def Set (k : String) (v : SVal) (m : Store) : Store :=
  fun k2 => if k2 = k then some v else m k2

/-- `state.Delete(key)` from `state.go`: removes the entry for `key`. -/
def Delete (k : String) (m : Store) : Store :=
  fun k2 => if k2 = k then none else m k2

/-- `state.Clear()` from `state.go`: reinitializes the map, discarding all entries. -/
def Clear (_ : Store) : Store := fun _ => none

end state

/-- Error kinds of the status authority (`GetKeyValuePair` / `ToggleHidden`
in `lib.go`): key open failure, integer-value read failure, value write
failure. -/
inductive RegErr where
  | openFail
  | readFail
  | writeFail
deriving DecidableEq

/-- The registry environment a single status-authority call runs against:
whether `registry.OpenKey` succeeds, what `GetIntegerValue("Hidden")`
returns (`none` = failure), and whether `SetDWordValue` succeeds. -/
structure RegWorld where
  openOk : Bool
  readVal : Option Nat
  writeOk : Bool
deriving DecidableEq

/-- The handle id `registry.OpenKey` hands out in this model (the one key
a single `GetKeyValuePair` call opens). -/
def hKey : Nat := 1

/-- The observable outcome of `GetKeyValuePair`: the named returns
`(key, value, err)` and the OS handles still open when the call returns
(the caller owns the returned `key` when non-zero and `closeKey` is false). -/
structure KVPResult where
  key : Nat
  value : Nat
  err : Option RegErr
  liveHandles : List Nat
deriving DecidableEq

/-- `Library.GetKeyValuePair(closeKey)` from `lib.go` lines 68-85.
On open failure it returns `0, 0, err` with nothing opened. On read
failure it returns `0, 0, err`; the deferred close runs only when
`closeKey` is true, so with `closeKey = false` the opened handle stays
open while the zero key is returned. On success it returns the key and
value; with `closeKey = true` the handle has been closed before return. -/
def GetKeyValuePair (closeKey : Bool) (w : RegWorld) : KVPResult :=
  if w.openOk = false then
    ⟨0, 0, some RegErr.openFail, []⟩
  else
    match w.readVal with
    | none => ⟨0, 0, some RegErr.readFail, if closeKey then [] else [hKey]⟩
    | some v => ⟨hKey, v, none, if closeKey then [] else [hKey]⟩

/-- The `newValue` computation of `ToggleHidden` (`lib.go` lines 216-221):
`statusHidden` maps to `statusVisible`, every other value maps to
`statusHidden`. -/
def toggleVal (v : Nat) : Nat :=
  if v = statusHidden then statusVisible else statusHidden

/-- Outcome of a `ToggleHidden` call: the shared state map afterwards, the
backing registry value afterwards (`none` only when even the initial value
is unknown because the key never opened), the handles left open when the
call returns, and the error it logged (if any). -/
structure ToggleResult where
  store : Store
  regValue : Option Nat
  liveHandles : List Nat
  err : Option RegErr

/-- `Library.ToggleHidden` from `lib.go` lines 208-229. It calls
`GetKeyValuePair(false)`; on error it logs and returns at once — before
the deferred `key.Close()` is registered — so handles left open by
`GetKeyValuePair` stay open. Otherwise it computes `newValue`, writes it
with `SetDWordValue` (a DWORD, hence the `% 2^32`), and only on write
success updates the `status_hidden` state entry; the deferred close
releases the handle on both the write-failure and the success path. -/
def ToggleHidden (w : RegWorld) (m : Store) : ToggleResult :=
  let kvp := GetKeyValuePair false w
  match kvp.err with
  | some e => ⟨m, w.readVal, kvp.liveHandles, some e⟩
  | none =>
    let newValue := toggleVal kvp.value
    if w.writeOk = false then
      ⟨m, w.readVal, [], some RegErr.writeFail⟩
    else
      ⟨state.Set "status_hidden" (SVal.u64 newValue) m, some (newValue % 2 ^ 32), [], none⟩

/-- The backing-value sequence produced by successive successful toggles
starting from the value `read()` returned at initialization. -/
def toggleSeq (v0 : Nat) : Nat → Nat
  | 0 => v0
  | n + 1 => toggleVal (toggleSeq v0 n)

/-- ASCII lowering of a character, for the case-insensitive comparisons
`strings.EqualFold` performs in `lib.go`. -/
def charLower (c : Char) : Char :=
  if 'A' ≤ c ∧ c ≤ 'Z' then Char.ofNat (c.toNat + 32) else c

/-- ASCII lowering of a string. -/
def strLower (s : String) : String := String.mk (s.toList.map charLower)

/-- Model of Go `strings.EqualFold` (external stdlib collaborator), at the
ASCII level the comparisons in `lib.go` rely on. -/
def eqFold (a b : String) : Bool := strLower a == strLower b

/-- Whether a character is a Windows path separator (Go accepts both). -/
def isSepC (c : Char) : Bool := c = '\\' || c = '/'

/-- Drive-letter volume prefix of a Windows path (`C:`), as Go's
`filepath.VolumeName` recognizes it for drive paths. -/
def pathVolume : List Char → List Char × List Char
  | a :: ':' :: rest =>
    if ('a' ≤ a ∧ a ≤ 'z') ∨ ('A' ≤ a ∧ a ≤ 'Z') then ([a, ':'], rest) else ([], a :: ':' :: rest)
  | cs => ([], cs)

/-- Split a character list at separators, accumulating the current
component in reverse. -/
def splitCompsAux (cur : List Char) : List Char → List (List Char)
  | [] => [cur.reverse]
  | c :: rest =>
    if isSepC c then cur.reverse :: splitCompsAux [] rest
    else splitCompsAux (c :: cur) rest

/-- Split a path body into components at separators. -/
def splitComps (cs : List Char) : List (List Char) :=
  splitCompsAux [] cs

/-- Element processing of Go `filepath.Clean` over a reversed output
stack: drop empty and `.` elements; `..` pops the previous element, is
dropped at the root of an absolute path, and is kept at the head of a
relative path. -/
def cleanFold (abs : Bool) (out : List (List Char)) (c : List Char) : List (List Char) :=
  if c = [] ∨ c = ['.'] then out
  else if c = ['.', '.'] then
    match out with
    | [] => if abs then [] else [['.', '.']]
    | p :: rest => if p = ['.', '.'] then c :: out else rest
  else c :: out

/-- Join path components with backslashes. -/
def joinBS : List (List Char) → List Char
  | [] => []
  | [c] => c
  | c :: rest => c ++ '\\' :: joinBS rest

/-- Model of Go `path/filepath.Clean` for Windows paths (external stdlib
collaborator, used by `IsFileExplorer` in `lib.go`): both slashes
separate, `.` and empty elements are dropped, `..` is resolved, the
result uses backslashes, and an empty result cleans to `.`. -/
def filepathClean (s : String) : String :=
  let cs := s.toList
  let (vol, rest) := pathVolume cs
  let abs := match rest with
    | c :: _ => isSepC c
    | [] => false
  let out := ((splitComps rest).foldl (cleanFold abs) []).reverse
  let body := joinBS out
  if abs then String.mk (vol ++ '\\' :: body)
  else if body = [] then (if vol = [] then "." else String.mk vol)
  else String.mk (vol ++ body)

/-- Model of Go `path/filepath.Join` on two elements (external stdlib
collaborator): non-empty elements joined with a backslash, then cleaned. -/
def filepathJoin (a b : String) : String :=
  if a = "" ∧ b = "" then ""
  else if a = "" then filepathClean b
  else if b = "" then filepathClean a
  else filepathClean (a ++ "\\" ++ b)

/-- The per-window queries `IsFileExplorer` makes, with `none`/`false`
standing for the corresponding OS call failing for this window:
`GetClassName`, `GetWindowThreadProcessId`, `OpenProcess`,
`QueryFullProcessImageName`. -/
structure WinEnv where
  className : Option String
  pid : Option Nat
  openProcOk : Bool
  exePath : Option String
deriving DecidableEq

/-- `Library.IsFileExplorer` from `lib.go` lines 94-131: each failed OS
query returns `false`; the class name must case-insensitively equal
`CabinetWClass`; the owning process's image path, cleaned, must
case-insensitively equal `Join(env["SystemRoot"], "explorer.exe")`. -/
def IsFileExplorer (root : String) (w : WinEnv) : Bool :=
  match w.className with
  | none => false
  | some cn =>
    if eqFold cn "CabinetWClass" = false then false
    else
      match w.pid with
      | none => false
      | some _ =>
        if w.openProcOk = false then false
        else
          match w.exePath with
          | none => false
          | some p =>
            let exeName := filepathClean p
            let procName := filepathJoin root "explorer.exe"
            eqFold exeName procName

/-- The file-browser identity test as the spec words it (for the
refinement claim C6): the class name case-insensitively equals
`CabinetWClass`, every per-window OS query succeeded, and the normalized
executable path case-insensitively equals `<SystemRoot>\explorer.exe`. -/
def isFileBrowserSpec (root : String) (w : WinEnv) : Prop :=
  ∃ cn p, w.className = some cn ∧ eqFold cn "CabinetWClass" = true ∧
    w.pid.isSome = true ∧ w.openProcOk = true ∧ w.exePath = some p ∧
    eqFold (filepathClean p) (filepathJoin root "explorer.exe") = true

/-- Whether any enumerated window passes the identity test — the `found`
flag that `enumWindowsProc` (`lib.go` lines 340-349) raises for matching
windows. -/
def anyExplorer (root : String) (ws : List WinEnv) : Bool :=
  ws.any (IsFileExplorer root)

/-- The "WinEvent hook is already set" check of `RefreshExplorerWindows`
(`lib.go` lines 168-171): `state.Get[windows.Handle]("hook_winEvent")`
returned `ok` and a non-zero hook. -/
def hookArmed (m : Store) : Bool :=
  match m "hook_winEvent" with
  | some (SVal.handle h) => h ≠ 0
  | _ => false

/-- What a `RefreshExplorerWindows` call did: the enumeration primitive
itself failed; at least one matching window was found (and refreshed);
no match was found and the watcher was armed (`WatchMessageLoop`
invoked); or no match was found but a hook was already recorded, so no
second watcher was armed. -/
inductive RefreshAction where
  | enumFailed
  | foundSome
  | armed
  | alreadyArmed
deriving DecidableEq

/-- `Library.RefreshExplorerWindows` from `lib.go` lines 152-175 (the
enumeration-and-arming decision, which the method's mutex serializes):
if `EnumWindows` errors the call returns; if a matching window was found
nothing is armed; otherwise `WatchMessageLoop` is invoked unless a
non-zero hook handle is already recorded in shared state. -/
def RefreshExplorerWindows (root : String) (ws : List WinEnv) (enumOk : Bool) (m : Store) :
    RefreshAction :=
  if enumOk = false then RefreshAction.enumFailed
  else if anyExplorer root ws then RefreshAction.foundSome
  else if hookArmed m then RefreshAction.alreadyArmed
  else RefreshAction.armed

/-- The shared-state writes `WatchMessageLoop` performs after
`SetWinEventHook` succeeds (`lib.go` lines 254-255): record the hook
handle and the owning thread id. -/
def watchSetupStore (h tid : Nat) (m : Store) : Store :=
  state.Set "threadId_winEvent" (SVal.u32 tid) (state.Set "hook_winEvent" (SVal.handle h) m)

/-- One `GetMessage` outcome in the message loop: `quit` (`r1 == 0`,
WM_QUIT), `fail` (retrieval error), or an ordinary message that is
translated and dispatched. -/
inductive MsgResult where
  | quit
  | fail
  | msg
deriving DecidableEq

/-- Scan the message sequence as the loop in `lib.go` lines 260-270 does:
`none` when every entry was an ordinary message (the loop is still
pumping), `some e` when it broke, with `e` recording whether the break
reported an error on the error channel. -/
def msgLoopBreak : List MsgResult → Option Bool
  | [] => none
  | MsgResult.quit :: _ => some false
  | MsgResult.fail :: _ => some true
  | MsgResult.msg :: rest => msgLoopBreak rest

/-- Outcome of the armed watcher's goroutine: the shared state afterwards,
whether the loop has terminated, whether `UnhookWinEvent` ran, and whether
an error was sent on the error channel. -/
structure LoopResult where
  store : Store
  terminated : Bool
  unhooked : Bool
  errReported : Bool

/-- The body of `Library.WatchMessageLoop` from `lib.go` lines 236-278,
after `SetWinEventHook` succeeded with handle `h` on thread `tid`: record
both state entries, pump `msgs`; when the loop breaks (WM_QUIT or a
retrieval failure) unregister the hook (guarded by `hook != 0`) and
delete both state entries. -/
def WatchMessageLoop (h tid : Nat) (msgs : List MsgResult) (m : Store) : LoopResult :=
  let m1 := watchSetupStore h tid m
  match msgLoopBreak msgs with
  | none => ⟨m1, false, false, false⟩
  | some e =>
    ⟨state.Delete "threadId_winEvent" (state.Delete "hook_winEvent" m1), true, h ≠ 0, e⟩

/-- One wake cycle of the registry watcher: whether
`RegNotifyChangeKeyValue` succeeded, whether the wait returned
`WAIT_OBJECT_0`, and what the follow-up `GetKeyValuePair` read returned
(`none` = failure). -/
structure RegIter where
  notifyOk : Bool
  woke : Bool
  readVal : Option Nat
deriving DecidableEq

/-- Whether the registry watcher's `for` loop has returned or is still
iterating. -/
inductive RegLoopEnd where
  | exited
  | running
deriving DecidableEq

/-- Outcome of running the registry watcher's loop over a sequence of wake
cycles: the shared state afterwards, whether the loop returned, how many
errors it sent on the error channel, and how many status updates it
applied. -/
structure RegWatchResult where
  store : Store
  outcome : RegLoopEnd
  errors : Nat
  updates : Nat

/-- The `for` loop of `Library.WatchRegistryKey` from `lib.go` lines
305-322: a notify-registration failure sends an error and returns; a wake
whose follow-up read fails sends an error and returns; a successful read
sets `status_hidden` and triggers the refreshes, then the loop re-arms. -/
def watchRegLoop : List RegIter → Store → Nat → Nat → RegWatchResult
  | [], m, errs, upds => ⟨m, RegLoopEnd.running, errs, upds⟩
  | it :: rest, m, errs, upds =>
    if it.notifyOk = false then ⟨m, RegLoopEnd.exited, errs + 1, upds⟩
    else if it.woke = false then watchRegLoop rest m errs upds
    else
      match it.readVal with
      | none => ⟨m, RegLoopEnd.exited, errs + 1, upds⟩
      | some v => watchRegLoop rest (state.Set "status_hidden" (SVal.u64 v) m) errs (upds + 1)

/-- The hotkey listener's loop from `app.go` lines 156-162: for every
key-down it invokes `ToggleHidden` (whose failures are only logged) and
keeps listening. Returns the state after all events and the number of
key-downs handled. -/
def hotkeyLoop : List RegWorld → Store → Store × Nat
  | [], m => (m, 0)
  | w :: rest, m =>
    let r := ToggleHidden w m
    let (m2, n) := hotkeyLoop rest r.store
    (m2, n + 1)

/-- User-visible effects of the application-ready error path: a
fatal-level log line, process termination with an exit code, and showing
the blocking error message box. -/
inductive Effect where
  | logFatalMsg
  | exitProcess (code : Nat)
  | showMsgbox
deriving DecidableEq

/-- Model of `logrus.Logger.Fatal` (external collaborator, at its
documented interface): it logs the message at fatal level and then calls
`os.Exit(1)`. -/
def logrusFatal : List Effect := [Effect.logFatalMsg, Effect.exitProcess 1]

/-- The statement sequence of `onReady`'s hotkey-registration failure
branch (`app.go` lines 150-154): `log.Fatal(msg)` followed by
`msgbox("Fatal Error", msg, MB_OK|MB_ICONERROR, 1)`. -/
def onReadyHotkeyFailStmts : List Effect := logrusFatal ++ [Effect.showMsgbox]

/-- Execution semantics of `os.Exit`: effects sequenced after process
termination never occur. -/
def takeUntilExit : List Effect → List Effect
  | [] => []
  | Effect.exitProcess c :: _ => [Effect.exitProcess c]
  | e :: rest => e :: takeUntilExit rest

/-- The effects that actually occur when hotkey registration fails at
startup. -/
def onReadyHotkeyFailTrace : List Effect := takeUntilExit onReadyHotkeyFailStmts

theorem toggleVal_cases (v : Nat) : toggleVal v = statusVisible ∨ toggleVal v = statusHidden := by
  unfold toggleVal
  split <;> simp

theorem toggleVal_lt (v : Nat) : toggleVal v < 4294967296 := by
  rcases toggleVal_cases v with h | h <;> rw [h] <;> norm_num [statusVisible, statusHidden]

theorem toggleVal_mod (v : Nat) : toggleVal v % 2 ^ 32 = toggleVal v :=
  Nat.mod_eq_of_lt (by simpa using toggleVal_lt v)

theorem toggleSeq_succ (v0 n : Nat) : toggleSeq v0 (n + 1) = toggleVal (toggleSeq v0 n) := rfl

theorem toggle_regValue (w : RegWorld) (m : Store) (v : Nat) (ho : w.openOk = true)
    (hr : w.readVal = some v) (hw : w.writeOk = true) :
    (ToggleHidden w m).regValue = some (toggleVal v) ∧
    (ToggleHidden w m).store = state.Set "status_hidden" (SVal.u64 (toggleVal v)) m := by
  obtain ⟨o, r, wok⟩ := w
  simp only at ho hr hw
  subst ho hr hw
  simp [ToggleHidden, GetKeyValuePair, toggleVal_mod, toggleVal_lt]

/-- C1, counterexample: starting from an initial backing value outside
{1, 2} (here 0), two consecutive successful toggles yield backing value 1,
not the original 0 — the parenthetical of the claim fails. -/
theorem C1_double_toggle_cex :
    (ToggleHidden ⟨true, some 0, true⟩ emptyStore).regValue = some 2 ∧
    (ToggleHidden ⟨true, some 2, true⟩
      (ToggleHidden ⟨true, some 0, true⟩ emptyStore).store).regValue = some 1 ∧
    toggleSeq 0 2 = 1 ∧ (1 : Nat) ≠ 0 := by
  refine ⟨rfl, rfl, rfl, by decide⟩

/-- C1, amended: from the first successful toggle on, the stored status
lies in {Visible, Hidden} and alternates strictly with period two; two
consecutive toggles restore the original status when (and, for the first
pair, only when) the status before them lies in {1, 2}; an initial value
outside {1, 2} is first mapped to Hidden. Each successful `ToggleHidden`
writes the next element of the sequence. -/
theorem C1_toggle_alternation (v0 n : Nat) :
    (toggleSeq v0 (n + 1) = statusVisible ∨ toggleSeq v0 (n + 1) = statusHidden) ∧
    toggleSeq v0 (n + 2) ≠ toggleSeq v0 (n + 1) ∧
    toggleSeq v0 (n + 3) = toggleSeq v0 (n + 1) ∧
    ((v0 = statusVisible ∨ v0 = statusHidden) → toggleSeq v0 2 = v0) ∧
    (∀ w m, w.openOk = true → w.readVal = some (toggleSeq v0 n) → w.writeOk = true →
      (ToggleHidden w m).regValue = some (toggleSeq v0 (n + 1))) := by
  refine ⟨toggleVal_cases _, ?_, ?_, ?_, ?_⟩
  · rw [toggleSeq_succ v0 (n + 1)]
    rcases toggleVal_cases (toggleSeq v0 n) with h | h <;>
      rw [toggleSeq_succ, h] <;> decide
  · rw [toggleSeq_succ v0 (n + 2), toggleSeq_succ v0 (n + 1)]
    rcases toggleVal_cases (toggleSeq v0 n) with h | h <;> rw [toggleSeq_succ, h] <;> rfl
  · rintro (h | h) <;> subst h <;> rfl
  · intro w m ho hr hw
    exact (toggle_regValue w m _ ho hr hw).1

/-- C1 witness: the amended theorem applied at concrete inputs, with the
restore clause discharged at the in-range value 1 and the toggle link
evaluated at initial value 5. -/
theorem C1_toggle_alternation_witness :
    (toggleSeq 5 1 = statusVisible ∨ toggleSeq 5 1 = statusHidden) ∧
    toggleSeq 5 2 ≠ toggleSeq 5 1 ∧
    toggleSeq 1 2 = 1 ∧
    (ToggleHidden ⟨true, some 5, true⟩ emptyStore).regValue = some (toggleSeq 5 1) :=
  have h5 := C1_toggle_alternation 5 0
  have h1 := C1_toggle_alternation 1 0
  ⟨h5.1, h5.2.1, h1.2.2.2.1 (Or.inl rfl),
    h5.2.2.2.2 ⟨true, some 5, true⟩ emptyStore rfl rfl rfl⟩

/-- C2: when hotkey registration fails, `log.Fatal` (which logs and then
exits the process) runs before the `msgbox` call on the following line, so
the process terminates with a logged fatal error but the blocking error
dialog in the source is dead code and is never shown. -/
theorem C2_hotkey_failure_no_dialog :
    onReadyHotkeyFailTrace = [Effect.logFatalMsg, Effect.exitProcess 1] ∧
    Effect.showMsgbox ∉ onReadyHotkeyFailTrace ∧
    Effect.showMsgbox ∈ onReadyHotkeyFailStmts := by
  refine ⟨rfl, by decide, by decide⟩

/-- C3, counterexample: a toggle whose value read fails leaves the handle
it opened unreleased (`liveHandles = [hKey]`), contradicting the claim
that on any failure the handle is still released. -/
theorem C3_read_failure_handle_leak_cex :
    (ToggleHidden ⟨true, none, true⟩ emptyStore).err = some RegErr.readFail ∧
    (ToggleHidden ⟨true, none, true⟩ emptyStore).liveHandles ≠ [] := by
  refine ⟨rfl, by decide⟩

/-- C3, amended: on every failing toggle the in-memory status entry is
left exactly as before the call; the registry handle is released on an
open failure (none was opened) and on a write failure (the deferred close
runs), but on a value-read failure the handle opened by the call is
leaked, since `GetKeyValuePair` returns a zero key and `ToggleHidden`
returns before registering its deferred close. -/
theorem C3_toggle_failure_amended (w : RegWorld) (m : Store)
    (hf : (ToggleHidden w m).err.isSome = true) :
    (ToggleHidden w m).store = m ∧
    ((ToggleHidden w m).err = some RegErr.readFail ↔
      (ToggleHidden w m).liveHandles = [hKey]) ∧
    ((ToggleHidden w m).err ≠ some RegErr.readFail → (ToggleHidden w m).liveHandles = []) := by
  obtain ⟨o, r, wok⟩ := w
  cases o <;> cases wok <;> rcases r with _ | v <;>
    simp_all [ToggleHidden, GetKeyValuePair, hKey]

/-- C3 witness: the amended theorem applied to a write-failure world and
evaluated. -/
theorem C3_toggle_failure_amended_witness :
    (ToggleHidden ⟨true, some 1, false⟩ emptyStore).err.isSome = true ∧
    (ToggleHidden ⟨true, some 1, false⟩ emptyStore).store = emptyStore ∧
    (ToggleHidden ⟨true, some 1, false⟩ emptyStore).liveHandles = [] :=
  have h := C3_toggle_failure_amended ⟨true, some 1, false⟩ emptyStore rfl
  ⟨rfl, h.1, h.2.2 (by decide)⟩

/-- C4, counterexample: a registry-watcher wake whose follow-up read fails
makes the loop return after reporting on the error channel — the next
cycle (whose read would succeed with value 1) is never processed and no
status update is applied, so the watcher's loop does not continue. -/
theorem C4_watcher_read_failure_cex :
    (watchRegLoop [⟨true, true, none⟩, ⟨true, true, some statusVisible⟩]
      emptyStore 0 0).outcome = RegLoopEnd.exited ∧
    (watchRegLoop [⟨true, true, none⟩, ⟨true, true, some statusVisible⟩]
      emptyStore 0 0).updates = 0 ∧
    (watchRegLoop [⟨true, true, none⟩, ⟨true, true, some statusVisible⟩]
      emptyStore 0 0).errors = 1 ∧
    state.Get STy.u64 "status_hidden"
      (watchRegLoop [⟨true, true, none⟩, ⟨true, true, some statusVisible⟩]
        emptyStore 0 0).store = (SVal.u64 0, false) := by
  refine ⟨rfl, rfl, rfl, rfl⟩

/-- C4, amended: the hotkey listener's loop survives every toggle failure
(it handles every key-down event), but a Status Authority read failure on
a registry-watcher wake reports exactly one error on the error channel and
terminates that watcher's loop with the state unchanged — like a setup
failure, it ends the loop rather than continuing it. -/
theorem C4_loop_failure_policy (rest : List RegIter) (m : Store) (errs upds : Nat)
    (evs : List RegWorld) :
    (watchRegLoop (⟨true, true, none⟩ :: rest) m errs upds).outcome = RegLoopEnd.exited ∧
    (watchRegLoop (⟨true, true, none⟩ :: rest) m errs upds).errors = errs + 1 ∧
    (watchRegLoop (⟨true, true, none⟩ :: rest) m errs upds).updates = upds ∧
    (watchRegLoop (⟨true, true, none⟩ :: rest) m errs upds).store = m ∧
    (hotkeyLoop evs m).2 = evs.length := by
  refine ⟨rfl, rfl, rfl, rfl, ?_⟩
  induction evs generalizing m with
  | nil => rfl
  | cons w rest2 ih => simp [hotkeyLoop, ih]



/-- C5: shared-state-store contract — `Get` after `Set k v` with a
matching requested type returns `(v, true)`; `Get` after `Delete k`
returns the zero value and `false`; so does `Get` on a never-set key and
`Get` whose stored value fails the type assertion; `Clear` leaves every
key unset. -/
theorem C5_state_store (m : Store) (k : String) (v : SVal) (T : STy) :
    (v.ty = T → state.Get T k (state.Set k v m) = (v, true)) ∧
    state.Get T k (state.Delete k m) = (T.zero, false) ∧
    (m k = none → state.Get T k m = (T.zero, false)) ∧
    (∀ u, m k = some u → u.ty ≠ T → state.Get T k m = (T.zero, false)) ∧
    state.Get T k (state.Clear m) = (T.zero, false) := by
  refine ⟨?_, ?_, ?_, ?_, ?_⟩
  · intro hty
    simp [state.Get, state.Set, hty]
  · simp [state.Get, state.Delete]
  · intro hnone
    simp [state.Get, hnone]
  · intro u hu hty
    simp [state.Get, hu, hty]
  · simp [state.Get, state.Clear]

/-- C5 witness: the store contract evaluated at concrete keys, values and
requested types, including a stored `bool` read back at type `uint64`. -/
theorem C5_state_store_witness :
    state.Get STy.u64 "x" (state.Set "x" (SVal.u64 7) emptyStore) = (SVal.u64 7, true) ∧
    state.Get STy.u64 "x" (state.Delete "x" (state.Set "x" (SVal.u64 7) emptyStore)) =
      (SVal.u64 0, false) ∧
    state.Get STy.u64 "y" emptyStore = (SVal.u64 0, false) ∧
    state.Get STy.u64 "x" (state.Set "x" (SVal.b true) emptyStore) = (SVal.u64 0, false) ∧
    state.Get STy.u64 "x" (state.Clear (state.Set "x" (SVal.u64 7) emptyStore)) =
      (SVal.u64 0, false) :=
  have h1 := C5_state_store emptyStore "x" (SVal.u64 7) STy.u64
  have h2 := C5_state_store (state.Set "x" (SVal.u64 7) emptyStore) "x" (SVal.u64 7) STy.u64
  have h3 := C5_state_store emptyStore "y" (SVal.u64 7) STy.u64
  have h4 := C5_state_store (state.Set "x" (SVal.b true) emptyStore) "x" (SVal.u64 7) STy.u64
  ⟨h1.1 rfl, h2.2.1, h3.2.2.1 rfl, h4.2.2.2.1 (SVal.b true) rfl (by decide), h2.2.2.2.2⟩

/-- C6: a window passes the identity test iff every per-window OS query
succeeded, the class name case-insensitively equals `CabinetWClass`, and
the cleaned executable path case-insensitively equals
`Join(SystemRoot, "explorer.exe")`; in particular a window with any failed
query is rejected, and no per-window outcome makes the enumeration itself
fail. -/
theorem C6_identity_test (root : String) (w : WinEnv) :
    (IsFileExplorer root w = true ↔ isFileBrowserSpec root w) ∧
    (∀ ws : List WinEnv, ∀ m : Store,
      RefreshExplorerWindows root ws true m ≠ RefreshAction.enumFailed) := by
  constructor
  · obtain ⟨cn, pid, opk, exe⟩ := w
    rcases cn with _ | c
    · simp [IsFileExplorer, isFileBrowserSpec]
    rcases pid with _ | p
    · simp [IsFileExplorer, isFileBrowserSpec]
    cases opk
    · simp [IsFileExplorer, isFileBrowserSpec]
    rcases exe with _ | e
    · simp [IsFileExplorer, isFileBrowserSpec]
    cases hc : eqFold c "CabinetWClass"
    · simp [IsFileExplorer, isFileBrowserSpec, hc]
    · simp [IsFileExplorer, isFileBrowserSpec, hc]
  · intro ws m
    unfold RefreshExplorerWindows
    split
    · rename_i hcond
      exact absurd hcond (by decide)
    · split
      · decide
      · split <;> decide

/-- C6 witness: the iff applied to a concrete window that matches only up
to ASCII case and path normalization, and the enumeration conjunct applied
to a window whose every query fails. -/
theorem C6_identity_test_witness :
    IsFileExplorer "C:\\Windows"
      ⟨some "cabinetwclass", some 4, true, some "c:\\WINDOWS\\explorer.exe"⟩ = true ∧
    IsFileExplorer "C:\\Windows" ⟨some "CabinetWClass", none, true,
      some "C:\\Windows\\explorer.exe"⟩ = false ∧
    RefreshExplorerWindows "C:\\Windows" [⟨none, none, false, none⟩] true emptyStore ≠
      RefreshAction.enumFailed :=
  have h := C6_identity_test "C:\\Windows"
    ⟨some "cabinetwclass", some 4, true, some "c:\\WINDOWS\\explorer.exe"⟩
  ⟨h.1.mpr ⟨"cabinetwclass", "c:\\WINDOWS\\explorer.exe", rfl, by decide, rfl, rfl, rfl,
      by decide⟩,
    rfl, h.2 [⟨none, none, false, none⟩] emptyStore⟩

/-- C7: a refresh that finds no matching window and no recorded non-zero
hook handle arms the watcher (invokes `WatchMessageLoop`) exactly once;
a refresh made while a non-zero hook handle is recorded never arms, and in
particular a second refresh right after a successful arming reports the
hook as already set. -/
theorem C7_refresh_arming (root : String) (ws : List WinEnv) (m : Store) (h tid : Nat) :
    (anyExplorer root ws = false → hookArmed m = false →
      RefreshExplorerWindows root ws true m = RefreshAction.armed) ∧
    (hookArmed m = true →
      RefreshExplorerWindows root ws true m ≠ RefreshAction.armed) ∧
    (anyExplorer root ws = false → h ≠ 0 →
      RefreshExplorerWindows root ws true (watchSetupStore h tid m) =
        RefreshAction.alreadyArmed) := by
  refine ⟨?_, ?_, ?_⟩
  · intro hfound harmed
    simp [RefreshExplorerWindows, hfound, harmed]
  · intro harmed
    unfold RefreshExplorerWindows
    cases hfound : anyExplorer root ws <;> simp [hfound, harmed]
  · intro hfound hz
    have harm : hookArmed (watchSetupStore h tid m) = true := by
      simp [hookArmed, watchSetupStore, state.Set, hz]
    simp [RefreshExplorerWindows, hfound, harm]

/-- C7 witness: with no windows open and an empty state the refresh arms;
after the watcher records hook handle 5 on thread 7, a second refresh does
not arm again. -/
theorem C7_refresh_arming_witness :
    RefreshExplorerWindows "C:\\Windows" [] true emptyStore = RefreshAction.armed ∧
    RefreshExplorerWindows "C:\\Windows" [] true (watchSetupStore 5 7 emptyStore) =
      RefreshAction.alreadyArmed ∧
    RefreshExplorerWindows "C:\\Windows" [] true (watchSetupStore 5 7 emptyStore) ≠
      RefreshAction.armed :=
  have h1 := C7_refresh_arming "C:\\Windows" [] emptyStore 5 7
  have h2 := C7_refresh_arming "C:\\Windows" [] (watchSetupStore 5 7 emptyStore) 5 7
  ⟨h1.1 rfl rfl, h1.2.2 rfl (by decide), h2.2.1 (by decide)⟩

/-- C8: whenever the armed watcher's message loop terminates — on the quit
signal or on any message-retrieval failure — both shared-state entries
(hook handle and owning thread id) are absent afterwards, and the event
hook (when non-zero) has been unregistered. -/
theorem delete_get_absent (T : STy) (k : String) (m : Store) :
    state.Get T k (state.Delete k m) = (T.zero, false) := by
  simp [state.Get, state.Delete]

theorem delete_get_other (T : STy) (k k2 : String) (m : Store) (hne : k ≠ k2) :
    state.Get T k (state.Delete k2 m) = state.Get T k m := by
  simp [state.Get, state.Delete, hne]

theorem C8_loop_teardown (h tid : Nat) (msgs : List MsgResult) (m : Store)
    (ht : (WatchMessageLoop h tid msgs m).terminated = true) :
    state.Get STy.handle "hook_winEvent" (WatchMessageLoop h tid msgs m).store =
      (SVal.handle 0, false) ∧
    state.Get STy.u32 "threadId_winEvent" (WatchMessageLoop h tid msgs m).store =
      (SVal.u32 0, false) ∧
    (h ≠ 0 → (WatchMessageLoop h tid msgs m).unhooked = true) := by
  revert ht
  unfold WatchMessageLoop
  cases msgLoopBreak msgs with
  | none =>
    intro ht
    simp at ht
  | some e =>
    intro ht
    refine ⟨?_, ?_, fun hz => ?_⟩
    · exact (delete_get_other STy.handle "hook_winEvent" "threadId_winEvent" _
        (by decide)).trans (delete_get_absent STy.handle "hook_winEvent" _)
    · exact delete_get_absent STy.u32 "threadId_winEvent" _
    · exact decide_eq_true hz

/-- C8 witness: a loop that pumps one ordinary message and then receives
the quit signal tears down hook handle 5 and thread id 7. -/
theorem C8_loop_teardown_witness :
    (WatchMessageLoop 5 7 [MsgResult.msg, MsgResult.quit] emptyStore).terminated = true ∧
    state.Get STy.handle "hook_winEvent"
      (WatchMessageLoop 5 7 [MsgResult.msg, MsgResult.quit] emptyStore).store =
      (SVal.handle 0, false) ∧
    state.Get STy.u32 "threadId_winEvent"
      (WatchMessageLoop 5 7 [MsgResult.msg, MsgResult.quit] emptyStore).store =
      (SVal.u32 0, false) ∧
    (WatchMessageLoop 5 7 [MsgResult.msg, MsgResult.quit] emptyStore).unhooked = true :=
  have h := C8_loop_teardown 5 7 [MsgResult.msg, MsgResult.quit] emptyStore rfl
  ⟨rfl, h.1, h.2.1, h.2.2 (by decide)⟩

/-- C9: a successful toggle that read backing value `v` writes 1 when
`v = 2` and 2 for every other `v` (0 included), so after any successful
toggle both the backing value and the shared-state status entry are the
same valid status in {1, 2}. -/
theorem C9_toggle_mapping (w : RegWorld) (m : Store) (v : Nat)
    (ho : w.openOk = true) (hr : w.readVal = some v) (hw : w.writeOk = true) :
    (ToggleHidden w m).regValue =
      some (if v = statusHidden then statusVisible else statusHidden) ∧
    ((ToggleHidden w m).regValue = some statusVisible ∨
      (ToggleHidden w m).regValue = some statusHidden) ∧
    state.Get STy.u64 "status_hidden" (ToggleHidden w m).store =
      (SVal.u64 (if v = statusHidden then statusVisible else statusHidden), true) := by
  obtain ⟨hreg, hstore⟩ := toggle_regValue w m v ho hr hw
  refine ⟨hreg, ?_, ?_⟩
  · rw [hreg]
    rcases toggleVal_cases v with h | h <;> rw [h]
    · exact Or.inl rfl
    · exact Or.inr rfl
  · rw [hstore]
    simp [state.Get, state.Set, SVal.ty, toggleVal]

/-- C9 witness: toggling from the out-of-range backing value 0 writes
Hidden (2) to both the registry and the status entry. -/
theorem C9_toggle_mapping_witness :
    (ToggleHidden ⟨true, some 0, true⟩ emptyStore).regValue = some statusHidden ∧
    state.Get STy.u64 "status_hidden" (ToggleHidden ⟨true, some 0, true⟩ emptyStore).store =
      (SVal.u64 statusHidden, true) :=
  have h := C9_toggle_mapping ⟨true, some 0, true⟩ emptyStore 0 rfl rfl rfl
  ⟨h.1, h.2.2⟩

/-- C10: a `GetKeyValuePair(false)` call whose key opens but whose integer
read fails returns the zero key with the error, while the handle it opened
is still live — it is neither returned (the returned key is 0, not the
opened handle) nor closed by the function. -/
theorem C10_read_failure_leak (w : RegWorld) (ho : w.openOk = true) (hr : w.readVal = none) :
    (GetKeyValuePair false w).key = 0 ∧
    (GetKeyValuePair false w).err = some RegErr.readFail ∧
    (GetKeyValuePair false w).liveHandles = [hKey] ∧
    hKey ≠ (GetKeyValuePair false w).key := by
  obtain ⟨o, r, wok⟩ := w
  simp only at ho hr
  subst ho hr
  exact ⟨rfl, rfl, rfl, (by decide : hKey ≠ 0)⟩

/-- C10 witness: the leak evaluated on the concrete read-failure world. -/
theorem C10_read_failure_leak_witness :
    (GetKeyValuePair false ⟨true, none, true⟩).key = 0 ∧
    (GetKeyValuePair false ⟨true, none, true⟩).err = some RegErr.readFail ∧
    (GetKeyValuePair false ⟨true, none, true⟩).liveHandles = [hKey] :=
  have h := C10_read_failure_leak ⟨true, none, true⟩ rfl rfl
  ⟨h.1, h.2.1, h.2.2.1⟩
